import Mathlib

set_option maxHeartbeats 1000000

/-! Verification development for the grimoire DSP cores (cantrip_filter,
cantrip_compressor, cantrip_delay).  The filter, envelope follower and
compressor are embedded over the real numbers (their Rust sources compute
with trigonometric, exponential and logarithmic functions); the delay line
is embedded over the rationals (its arithmetic is order/floor arithmetic),
with machine indices as naturals.  Fallible machine-level conversions
(`as usize`) are modelled by their saturating semantics. -/

noncomputable section

/-- Enumeration of the filter variants, translated from
cantrip_filter/src/parameters.rs (enum FilterType). -/
inductive FilterType where
  | LowPass
  | HighPass
  | BandPass
  | Notch
  | AllPass
  | LowPass6dB
  | HighPass6dB
  | Peaking
  | LowShelf
  | HighShelf
  | Tilt
  | LinkwitzRileyLP
  | LinkwitzRileyHP
  | ButterworthLP
  | ButterworthHP
  | BandPass0dB
  | Warmth
  | Brightness
  | Presence
  | Air
  | SubBass
  | Vocal
  | DCBlock
  | Unity
deriving DecidableEq

/-- Rust `f32::clamp(lo, hi)` for a valid range `lo ≤ hi`: clamp below to
`lo`, then above to `hi`. -/
def fclamp (x lo hi : ℝ) : ℝ := min (max x lo) hi

/-- Rust `std::f32::consts::FRAC_1_SQRT_2`, the constant 1/sqrt 2. -/
def frac_1_sqrt_2 : ℝ := 1 / Real.sqrt 2

/-- The unnormalized six coefficients (b0, b1, b2, a0, a1, a2) produced by
the match inside `Biquad::update` (cantrip_filter/src/dsp/biquad.rs). -/
structure RawCoefficients where
  b0 : ℝ
  b1 : ℝ
  b2 : ℝ
  a0 : ℝ
  a1 : ℝ
  a2 : ℝ

/-- Biquad filter state, translated from cantrip_filter/src/dsp/biquad.rs:
five normalized coefficients plus four history cells. -/
structure Biquad where
  a1 : ℝ
  a2 : ℝ
  b0 : ℝ
  b1 : ℝ
  b2 : ℝ
  x1 : ℝ
  x2 : ℝ
  y1 : ℝ
  y2 : ℝ

/-- Model of `Biquad::new` / `Biquad::default`: everything zeroed. -/
def Biquad.new : Biquad := ⟨0, 0, 0, 0, 0, 0, 0, 0, 0⟩

/-- Model of `Biquad::reset`: zero the four history cells, keep the coefficients. -/
def Biquad.reset (s : Biquad) : Biquad :=
  { s with x1 := 0, x2 := 0, y1 := 0, y2 := 0 }

/-- The coefficient derivation of `Biquad::update`
(cantrip_filter/src/dsp/biquad.rs lines 29-343): clamp the frequency,
compute the trigonometric context, and dispatch on the filter type.
Returns the raw (unnormalized) coefficients, normalization is applied by
`Biquad.update`. -/
def Biquad.rawCoefficients (filter_type : FilterType)
    (freq q gain_db sample_rate : ℝ) : RawCoefficients :=
  let freq := fclamp freq 1 (sample_rate * 0.499)
  let w0 := 2 * Real.pi * freq / sample_rate
  let cos_w0 := Real.cos w0
  let sin_w0 := Real.sin w0
  let alpha := sin_w0 / (2 * q)
  let a := (10 : ℝ) ^ (gain_db / 40)
  match filter_type with
  | .LowPass =>
      { b0 := (1 - cos_w0) / 2, b1 := 1 - cos_w0, b2 := (1 - cos_w0) / 2,
        a0 := 1 + alpha, a1 := -2 * cos_w0, a2 := 1 - alpha }
  | .HighPass =>
      { b0 := (1 + cos_w0) / 2, b1 := -(1 + cos_w0), b2 := (1 + cos_w0) / 2,
        a0 := 1 + alpha, a1 := -2 * cos_w0, a2 := 1 - alpha }
  | .BandPass =>
      { b0 := alpha, b1 := 0, b2 := -alpha,
        a0 := 1 + alpha, a1 := -2 * cos_w0, a2 := 1 - alpha }
  | .Notch =>
      { b0 := 1, b1 := -2 * cos_w0, b2 := 1,
        a0 := 1 + alpha, a1 := -2 * cos_w0, a2 := 1 - alpha }
  | .AllPass =>
      { b0 := 1 - alpha, b1 := -2 * cos_w0, b2 := 1 + alpha,
        a0 := 1 + alpha, a1 := -2 * cos_w0, a2 := 1 - alpha }
  | .LowPass6dB =>
      let k := Real.tan w0 / 2
      let norm := 1 / (1 + k)
      { b0 := k * norm, b1 := k * norm, b2 := 0,
        a0 := 1, a1 := (k - 1) * norm, a2 := 0 }
  | .HighPass6dB =>
      let k := Real.tan w0 / 2
      let norm := 1 / (1 + k)
      { b0 := norm, b1 := -norm, b2 := 0,
        a0 := 1, a1 := (k - 1) * norm, a2 := 0 }
  | .Peaking =>
      { b0 := 1 + alpha * a, b1 := -2 * cos_w0, b2 := 1 - alpha * a,
        a0 := 1 + alpha / a, a1 := -2 * cos_w0, a2 := 1 - alpha / a }
  | .LowShelf =>
      let two_sqrt_a_alpha := 2 * Real.sqrt a * alpha
      { b0 := a * ((a + 1) - (a - 1) * cos_w0 + two_sqrt_a_alpha),
        b1 := 2 * a * ((a - 1) - (a + 1) * cos_w0),
        b2 := a * ((a + 1) - (a - 1) * cos_w0 - two_sqrt_a_alpha),
        a0 := (a + 1) + (a - 1) * cos_w0 + two_sqrt_a_alpha,
        a1 := -2 * ((a - 1) + (a + 1) * cos_w0),
        a2 := (a + 1) + (a - 1) * cos_w0 - two_sqrt_a_alpha }
  | .HighShelf =>
      let two_sqrt_a_alpha := 2 * Real.sqrt a * alpha
      { b0 := a * ((a + 1) + (a - 1) * cos_w0 + two_sqrt_a_alpha),
        b1 := -2 * a * ((a - 1) + (a + 1) * cos_w0),
        b2 := a * ((a + 1) + (a - 1) * cos_w0 - two_sqrt_a_alpha),
        a0 := (a + 1) - (a - 1) * cos_w0 + two_sqrt_a_alpha,
        a1 := 2 * ((a - 1) - (a + 1) * cos_w0),
        a2 := (a + 1) - (a - 1) * cos_w0 - two_sqrt_a_alpha }
  | .Tilt =>
      let tilt_a := (10 : ℝ) ^ (gain_db / 20)
      let sqrt_a := Real.sqrt tilt_a
      { b0 := sqrt_a * (sqrt_a + alpha / sqrt_a),
        b1 := -2 * sqrt_a * cos_w0,
        b2 := sqrt_a * (sqrt_a - alpha / sqrt_a),
        a0 := sqrt_a + alpha * sqrt_a,
        a1 := -2 * sqrt_a * cos_w0,
        a2 := sqrt_a - alpha * sqrt_a }
  | .LinkwitzRileyLP =>
      let lr_alpha := sin_w0 / (2 * 0.5)
      { b0 := (1 - cos_w0) / 2, b1 := 1 - cos_w0, b2 := (1 - cos_w0) / 2,
        a0 := 1 + lr_alpha, a1 := -2 * cos_w0, a2 := 1 - lr_alpha }
  | .LinkwitzRileyHP =>
      let lr_alpha := sin_w0 / (2 * 0.5)
      { b0 := (1 + cos_w0) / 2, b1 := -(1 + cos_w0), b2 := (1 + cos_w0) / 2,
        a0 := 1 + lr_alpha, a1 := -2 * cos_w0, a2 := 1 - lr_alpha }
  | .ButterworthLP =>
      let bw_alpha := sin_w0 / (2 * frac_1_sqrt_2)
      { b0 := (1 - cos_w0) / 2, b1 := 1 - cos_w0, b2 := (1 - cos_w0) / 2,
        a0 := 1 + bw_alpha, a1 := -2 * cos_w0, a2 := 1 - bw_alpha }
  | .ButterworthHP =>
      let bw_alpha := sin_w0 / (2 * frac_1_sqrt_2)
      { b0 := (1 + cos_w0) / 2, b1 := -(1 + cos_w0), b2 := (1 + cos_w0) / 2,
        a0 := 1 + bw_alpha, a1 := -2 * cos_w0, a2 := 1 - bw_alpha }
  | .BandPass0dB =>
      { b0 := q * alpha, b1 := 0, b2 := -(q * alpha),
        a0 := 1 + alpha, a1 := -2 * cos_w0, a2 := 1 - alpha }
  | .Warmth =>
      let warmth_a := (10 : ℝ) ^ (max gain_db 3 / 40)
      let warmth_alpha := sin_w0 / (2 * 0.6)
      let two_sqrt_a_alpha := 2 * Real.sqrt warmth_a * warmth_alpha
      { b0 := warmth_a * ((warmth_a + 1) - (warmth_a - 1) * cos_w0 + two_sqrt_a_alpha),
        b1 := 2 * warmth_a * ((warmth_a - 1) - (warmth_a + 1) * cos_w0),
        b2 := warmth_a * ((warmth_a + 1) - (warmth_a - 1) * cos_w0 - two_sqrt_a_alpha),
        a0 := (warmth_a + 1) + (warmth_a - 1) * cos_w0 + two_sqrt_a_alpha,
        a1 := -2 * ((warmth_a - 1) + (warmth_a + 1) * cos_w0),
        a2 := (warmth_a + 1) + (warmth_a - 1) * cos_w0 - two_sqrt_a_alpha }
  | .Brightness =>
      let bright_a := (10 : ℝ) ^ (max gain_db 3 / 40)
      let bright_alpha := sin_w0 / (2 * 0.7)
      let two_sqrt_a_alpha := 2 * Real.sqrt bright_a * bright_alpha
      { b0 := bright_a * ((bright_a + 1) + (bright_a - 1) * cos_w0 + two_sqrt_a_alpha),
        b1 := -2 * bright_a * ((bright_a - 1) + (bright_a + 1) * cos_w0),
        b2 := bright_a * ((bright_a + 1) + (bright_a - 1) * cos_w0 - two_sqrt_a_alpha),
        a0 := (bright_a + 1) - (bright_a - 1) * cos_w0 + two_sqrt_a_alpha,
        a1 := 2 * ((bright_a - 1) - (bright_a + 1) * cos_w0),
        a2 := (bright_a + 1) - (bright_a - 1) * cos_w0 - two_sqrt_a_alpha }
  | .Presence =>
      let pres_a := (10 : ℝ) ^ (max gain_db 3 / 40)
      let pres_alpha := sin_w0 / (2 * 1.5)
      { b0 := 1 + pres_alpha * pres_a, b1 := -2 * cos_w0, b2 := 1 - pres_alpha * pres_a,
        a0 := 1 + pres_alpha / pres_a, a1 := -2 * cos_w0, a2 := 1 - pres_alpha / pres_a }
  | .Air =>
      let air_a := (10 : ℝ) ^ (max gain_db 3 / 40)
      let air_alpha := sin_w0 / (2 * 0.5)
      let two_sqrt_a_alpha := 2 * Real.sqrt air_a * air_alpha
      { b0 := air_a * ((air_a + 1) + (air_a - 1) * cos_w0 + two_sqrt_a_alpha),
        b1 := -2 * air_a * ((air_a - 1) + (air_a + 1) * cos_w0),
        b2 := air_a * ((air_a + 1) + (air_a - 1) * cos_w0 - two_sqrt_a_alpha),
        a0 := (air_a + 1) - (air_a - 1) * cos_w0 + two_sqrt_a_alpha,
        a1 := 2 * ((air_a - 1) - (air_a + 1) * cos_w0),
        a2 := (air_a + 1) - (air_a - 1) * cos_w0 - two_sqrt_a_alpha }
  | .SubBass =>
      let sub_a := (10 : ℝ) ^ (max gain_db 3 / 40)
      let sub_alpha := sin_w0 / (2 * 0.8)
      let two_sqrt_a_alpha := 2 * Real.sqrt sub_a * sub_alpha
      { b0 := sub_a * ((sub_a + 1) - (sub_a - 1) * cos_w0 + two_sqrt_a_alpha),
        b1 := 2 * sub_a * ((sub_a - 1) - (sub_a + 1) * cos_w0),
        b2 := sub_a * ((sub_a + 1) - (sub_a - 1) * cos_w0 - two_sqrt_a_alpha),
        a0 := (sub_a + 1) + (sub_a - 1) * cos_w0 + two_sqrt_a_alpha,
        a1 := -2 * ((sub_a - 1) + (sub_a + 1) * cos_w0),
        a2 := (sub_a + 1) + (sub_a - 1) * cos_w0 - two_sqrt_a_alpha }
  | .Vocal =>
      let vocal_a := (10 : ℝ) ^ (max gain_db 3 / 40)
      let vocal_alpha := sin_w0 / (2 * 2)
      { b0 := 1 + vocal_alpha * vocal_a, b1 := -2 * cos_w0, b2 := 1 - vocal_alpha * vocal_a,
        a0 := 1 + vocal_alpha / vocal_a, a1 := -2 * cos_w0, a2 := 1 - vocal_alpha / vocal_a }
  | .DCBlock =>
      let dc_w0 := 2 * Real.pi * 20 / sample_rate
      let dc_cos := Real.cos dc_w0
      let dc_alpha := Real.sin dc_w0 / (2 * 0.707)
      { b0 := (1 + dc_cos) / 2, b1 := -(1 + dc_cos), b2 := (1 + dc_cos) / 2,
        a0 := 1 + dc_alpha, a1 := -2 * dc_cos, a2 := 1 - dc_alpha }
  | .Unity =>
      { b0 := 1, b1 := 0, b2 := 0, a0 := 1, a1 := 0, a2 := 0 }

/-- Model of `Biquad::update`: derive the raw coefficients and store them normalized
by a0 (multiplication by inv_a0 = 1/a0), leaving the history untouched. -/
def Biquad.update (s : Biquad) (filter_type : FilterType)
    (freq q gain_db sample_rate : ℝ) : Biquad :=
  let rc := Biquad.rawCoefficients filter_type freq q gain_db sample_rate
  let inv_a0 := 1 / rc.a0
  { s with b0 := rc.b0 * inv_a0, b1 := rc.b1 * inv_a0, b2 := rc.b2 * inv_a0,
           a1 := rc.a1 * inv_a0, a2 := rc.a2 * inv_a0 }

/-- Model of `Biquad::process`: Direct-Form-I recurrence with flush-to-zero denormal
guard, then history shift. Returns the output together with the new state. -/
def Biquad.process (s : Biquad) (input : ℝ) : ℝ × Biquad :=
  let output := s.b0 * input + s.b1 * s.x1 + s.b2 * s.x2
    - s.a1 * s.y1 - s.a2 * s.y2
  let output := if |output| < 1e-11 then 0 else output
  (output, { s with x2 := s.x1, x1 := input, y2 := s.y1, y1 := output })

/-- Normalized biquad coefficients, translated from
cantrip_filter/src/dsp/coefficients.rs (struct BiquadCoefficients). -/
structure BiquadCoefficients where
  b0 : ℝ
  b1 : ℝ
  b2 : ℝ
  a1 : ℝ
  a2 : ℝ

/-- Model of `BiquadCoefficients::unity`: pass-through coefficients. -/
def BiquadCoefficients.unity : BiquadCoefficients :=
  { b0 := 1, b1 := 0, b2 := 0, a1 := 0, a2 := 0 }

/-- Model of `BiquadCoefficients::from_raw`: normalize raw coefficients by a0. -/
def BiquadCoefficients.from_raw (b0 b1 b2 a0 a1 a2 : ℝ) : BiquadCoefficients :=
  let inv_a0 := 1 / a0
  { b0 := b0 * inv_a0, b1 := b1 * inv_a0, b2 := b2 * inv_a0,
    a1 := a1 * inv_a0, a2 := a2 * inv_a0 }

/-- Cached intermediate values for the coefficient derivation, translated
from cantrip_filter/src/dsp/coefficients.rs (struct FilterContext). -/
structure FilterContext where
  w0 : ℝ
  cos_w0 : ℝ
  sin_w0 : ℝ
  alpha : ℝ
  a : ℝ

/-- Model of `FilterContext::new`: clamp the frequency and precompute the
trigonometric values, alpha, and the shelf gain factor. -/
def FilterContext.new (freq q gain_db sample_rate : ℝ) : FilterContext :=
  let freq := fclamp freq 1 (sample_rate * 0.499)
  let w0 := 2 * Real.pi * freq / sample_rate
  let cos_w0 := Real.cos w0
  let sin_w0 := Real.sin w0
  let alpha := sin_w0 / (2 * q)
  let a := (10 : ℝ) ^ (gain_db / 40)
  { w0 := w0, cos_w0 := cos_w0, sin_w0 := sin_w0, alpha := alpha, a := a }

/-- Model of `FilterContext::alpha_with_q`: alpha recomputed with a custom Q. -/
def FilterContext.alpha_with_q (ctx : FilterContext) (q : ℝ) : ℝ :=
  ctx.sin_w0 / (2 * q)

/-- Shelf orientation selector from cantrip_filter/src/parameters.rs. -/
inductive ShelfType where
  | Low
  | High

/-- Model of `FilterType::lowpass` (cantrip_filter/src/parameters.rs). -/
def FilterType.lowpass (ctx : FilterContext) : BiquadCoefficients :=
  let b1 := 1 - ctx.cos_w0
  let b0 := b1 / 2
  BiquadCoefficients.from_raw b0 b1 b0 (1 + ctx.alpha) (-2 * ctx.cos_w0) (1 - ctx.alpha)

/-- Model of `FilterType::highpass`. -/
def FilterType.highpass (ctx : FilterContext) : BiquadCoefficients :=
  let b1 := -(1 + ctx.cos_w0)
  let b0 := (1 + ctx.cos_w0) / 2
  BiquadCoefficients.from_raw b0 b1 b0 (1 + ctx.alpha) (-2 * ctx.cos_w0) (1 - ctx.alpha)

/-- Model of `FilterType::lowpass_with_q`: low-pass topology with an overridden Q. -/
def FilterType.lowpass_with_q (ctx : FilterContext) (q : ℝ) : BiquadCoefficients :=
  let alpha := ctx.alpha_with_q q
  let b1 := 1 - ctx.cos_w0
  let b0 := b1 / 2
  BiquadCoefficients.from_raw b0 b1 b0 (1 + alpha) (-2 * ctx.cos_w0) (1 - alpha)

/-- Model of `FilterType::highpass_with_q`: high-pass topology with an overridden Q. -/
def FilterType.highpass_with_q (ctx : FilterContext) (q : ℝ) : BiquadCoefficients :=
  let alpha := ctx.alpha_with_q q
  let b1 := -(1 + ctx.cos_w0)
  let b0 := (1 + ctx.cos_w0) / 2
  BiquadCoefficients.from_raw b0 b1 b0 (1 + alpha) (-2 * ctx.cos_w0) (1 - alpha)

/-- Model of `FilterType::bandpass`. -/
def FilterType.bandpass (ctx : FilterContext) : BiquadCoefficients :=
  BiquadCoefficients.from_raw ctx.alpha 0 (-ctx.alpha)
    (1 + ctx.alpha) (-2 * ctx.cos_w0) (1 - ctx.alpha)

/-- Model of `FilterType::bandpass_0db`. -/
def FilterType.bandpass_0db (ctx : FilterContext) (q : ℝ) : BiquadCoefficients :=
  BiquadCoefficients.from_raw (q * ctx.alpha) 0 (-(q * ctx.alpha))
    (1 + ctx.alpha) (-2 * ctx.cos_w0) (1 - ctx.alpha)

/-- Model of `FilterType::notch`. -/
def FilterType.notch (ctx : FilterContext) : BiquadCoefficients :=
  BiquadCoefficients.from_raw 1 (-2 * ctx.cos_w0) 1
    (1 + ctx.alpha) (-2 * ctx.cos_w0) (1 - ctx.alpha)

/-- Model of `FilterType::allpass`. -/
def FilterType.allpass (ctx : FilterContext) : BiquadCoefficients :=
  BiquadCoefficients.from_raw (1 - ctx.alpha) (-2 * ctx.cos_w0) (1 + ctx.alpha)
    (1 + ctx.alpha) (-2 * ctx.cos_w0) (1 - ctx.alpha)

/-- Model of `FilterType::lowpass_6db`. -/
def FilterType.lowpass_6db (ctx : FilterContext) : BiquadCoefficients :=
  let k := Real.tan ctx.w0 / 2
  let norm := 1 / (1 + k)
  let b0 := k * norm
  BiquadCoefficients.from_raw b0 b0 0 1 ((k - 1) * norm) 0

/-- Model of `FilterType::highpass_6db`. -/
def FilterType.highpass_6db (ctx : FilterContext) : BiquadCoefficients :=
  let k := Real.tan ctx.w0 / 2
  let norm := 1 / (1 + k)
  BiquadCoefficients.from_raw norm (-norm) 0 1 ((k - 1) * norm) 0

/-- Model of `FilterType::peaking`. -/
def FilterType.peaking (ctx : FilterContext) : BiquadCoefficients :=
  BiquadCoefficients.from_raw (1 + ctx.alpha * ctx.a) (-2 * ctx.cos_w0)
    (1 - ctx.alpha * ctx.a) (1 + ctx.alpha / ctx.a) (-2 * ctx.cos_w0)
    (1 - ctx.alpha / ctx.a)

/-- Model of `FilterType::shelf_coefficients`: shared low/high shelf formulas. -/
def FilterType.shelf_coefficients (ctx : FilterContext) (shelf_type : ShelfType) :
    BiquadCoefficients :=
  let two_sqrt_a_alpha := 2 * Real.sqrt ctx.a * ctx.alpha
  match shelf_type with
  | .Low =>
      BiquadCoefficients.from_raw
        (ctx.a * ((ctx.a + 1) - (ctx.a - 1) * ctx.cos_w0 + two_sqrt_a_alpha))
        (2 * ctx.a * ((ctx.a - 1) - (ctx.a + 1) * ctx.cos_w0))
        (ctx.a * ((ctx.a + 1) - (ctx.a - 1) * ctx.cos_w0 - two_sqrt_a_alpha))
        ((ctx.a + 1) + (ctx.a - 1) * ctx.cos_w0 + two_sqrt_a_alpha)
        (-2 * ((ctx.a - 1) + (ctx.a + 1) * ctx.cos_w0))
        ((ctx.a + 1) + (ctx.a - 1) * ctx.cos_w0 - two_sqrt_a_alpha)
  | .High =>
      BiquadCoefficients.from_raw
        (ctx.a * ((ctx.a + 1) + (ctx.a - 1) * ctx.cos_w0 + two_sqrt_a_alpha))
        (-2 * ctx.a * ((ctx.a - 1) + (ctx.a + 1) * ctx.cos_w0))
        (ctx.a * ((ctx.a + 1) + (ctx.a - 1) * ctx.cos_w0 - two_sqrt_a_alpha))
        ((ctx.a + 1) - (ctx.a - 1) * ctx.cos_w0 + two_sqrt_a_alpha)
        (2 * ((ctx.a - 1) - (ctx.a + 1) * ctx.cos_w0))
        ((ctx.a + 1) - (ctx.a - 1) * ctx.cos_w0 - two_sqrt_a_alpha)

/-- Model of `FilterType::low_shelf`. -/
def FilterType.low_shelf (ctx : FilterContext) : BiquadCoefficients :=
  FilterType.shelf_coefficients ctx .Low

/-- Model of `FilterType::high_shelf`. -/
def FilterType.high_shelf (ctx : FilterContext) : BiquadCoefficients :=
  FilterType.shelf_coefficients ctx .High

/-- Model of `FilterType::tilt`. -/
def FilterType.tilt (ctx : FilterContext) (gain_db : ℝ) : BiquadCoefficients :=
  let tilt_a := (10 : ℝ) ^ (gain_db / 20)
  let sqrt_a := Real.sqrt tilt_a
  BiquadCoefficients.from_raw
    (sqrt_a * (sqrt_a + ctx.alpha / sqrt_a))
    (-2 * sqrt_a * ctx.cos_w0)
    (sqrt_a * (sqrt_a - ctx.alpha / sqrt_a))
    (sqrt_a + ctx.alpha * sqrt_a)
    (-2 * sqrt_a * ctx.cos_w0)
    (sqrt_a - ctx.alpha * sqrt_a)

/-- Model of `FilterType::shelf_character`: character shelves with clamped minimum
gain of 3 dB and a filter-specific fixed Q. -/
def FilterType.shelf_character (ctx : FilterContext) (gain_db : ℝ)
    (shelf_type : ShelfType) (q : ℝ) : BiquadCoefficients :=
  let a := (10 : ℝ) ^ (max gain_db 3 / 40)
  let alpha := ctx.alpha_with_q q
  let two_sqrt_a_alpha := 2 * Real.sqrt a * alpha
  match shelf_type with
  | .Low =>
      BiquadCoefficients.from_raw
        (a * ((a + 1) - (a - 1) * ctx.cos_w0 + two_sqrt_a_alpha))
        (2 * a * ((a - 1) - (a + 1) * ctx.cos_w0))
        (a * ((a + 1) - (a - 1) * ctx.cos_w0 - two_sqrt_a_alpha))
        ((a + 1) + (a - 1) * ctx.cos_w0 + two_sqrt_a_alpha)
        (-2 * ((a - 1) + (a + 1) * ctx.cos_w0))
        ((a + 1) + (a - 1) * ctx.cos_w0 - two_sqrt_a_alpha)
  | .High =>
      BiquadCoefficients.from_raw
        (a * ((a + 1) + (a - 1) * ctx.cos_w0 + two_sqrt_a_alpha))
        (-2 * a * ((a - 1) + (a + 1) * ctx.cos_w0))
        (a * ((a + 1) + (a - 1) * ctx.cos_w0 - two_sqrt_a_alpha))
        ((a + 1) - (a - 1) * ctx.cos_w0 + two_sqrt_a_alpha)
        (2 * ((a - 1) - (a + 1) * ctx.cos_w0))
        ((a + 1) - (a - 1) * ctx.cos_w0 - two_sqrt_a_alpha)

/-- Model of `FilterType::peaking_character`: character peaking filters with clamped
minimum gain of 3 dB and a filter-specific fixed Q. -/
def FilterType.peaking_character (ctx : FilterContext) (gain_db q : ℝ) :
    BiquadCoefficients :=
  let a := (10 : ℝ) ^ (max gain_db 3 / 40)
  let alpha := ctx.alpha_with_q q
  BiquadCoefficients.from_raw (1 + alpha * a) (-2 * ctx.cos_w0) (1 - alpha * a)
    (1 + alpha / a) (-2 * ctx.cos_w0) (1 - alpha / a)

/-- Model of `FilterType::dc_block`: fixed ~20 Hz high-pass, ignores the frequency
parameter. -/
def FilterType.dc_block (sample_rate : ℝ) : BiquadCoefficients :=
  let dc_w0 := 2 * Real.pi * 20 / sample_rate
  let dc_cos := Real.cos dc_w0
  let dc_alpha := Real.sin dc_w0 / (2 * 0.707)
  let b0 := (1 + dc_cos) / 2
  BiquadCoefficients.from_raw b0 (-(1 + dc_cos)) b0
    (1 + dc_alpha) (-2 * dc_cos) (1 - dc_alpha)

/-- Model of `FilterType::compute_coefficients`: the dispatching coefficient
derivation from cantrip_filter/src/parameters.rs. -/
def FilterType.compute_coefficients (ft : FilterType)
    (freq q gain_db sample_rate : ℝ) : BiquadCoefficients :=
  let ctx := FilterContext.new freq q gain_db sample_rate
  match ft with
  | .LowPass => FilterType.lowpass ctx
  | .HighPass => FilterType.highpass ctx
  | .BandPass => FilterType.bandpass ctx
  | .Notch => FilterType.notch ctx
  | .AllPass => FilterType.allpass ctx
  | .LowPass6dB => FilterType.lowpass_6db ctx
  | .HighPass6dB => FilterType.highpass_6db ctx
  | .Peaking => FilterType.peaking ctx
  | .LowShelf => FilterType.low_shelf ctx
  | .HighShelf => FilterType.high_shelf ctx
  | .Tilt => FilterType.tilt ctx gain_db
  | .LinkwitzRileyLP => FilterType.lowpass_with_q ctx 0.5
  | .LinkwitzRileyHP => FilterType.highpass_with_q ctx 0.5
  | .ButterworthLP => FilterType.lowpass_with_q ctx frac_1_sqrt_2
  | .ButterworthHP => FilterType.highpass_with_q ctx frac_1_sqrt_2
  | .BandPass0dB => FilterType.bandpass_0db ctx q
  | .Warmth => FilterType.shelf_character ctx gain_db .Low 0.6
  | .Brightness => FilterType.shelf_character ctx gain_db .High 0.7
  | .Air => FilterType.shelf_character ctx gain_db .High 0.5
  | .SubBass => FilterType.shelf_character ctx gain_db .Low 0.8
  | .Presence => FilterType.peaking_character ctx gain_db 1.5
  | .Vocal => FilterType.peaking_character ctx gain_db 2
  | .DCBlock => FilterType.dc_block sample_rate
  | .Unity => BiquadCoefficients.unity

/-- Envelope follower state, translated from
cantrip_compressor/src/dsp/envelope.rs. -/
structure EnvelopeFollower where
  envelope : ℝ
  attack_coeff : ℝ
  release_coeff : ℝ

/-- Model of `EnvelopeFollower::default`: all fields zero. -/
def EnvelopeFollower.default : EnvelopeFollower := ⟨0, 0, 0⟩

/-- Model of `EnvelopeFollower::reset`: zero the envelope, keep the coefficients. -/
def EnvelopeFollower.reset (e : EnvelopeFollower) : EnvelopeFollower :=
  { e with envelope := 0 }

/-- Model of `EnvelopeFollower::set_times`: one-pole time-constant coefficients. -/
def EnvelopeFollower.set_times (e : EnvelopeFollower)
    (attack_ms release_ms sample_rate : ℝ) : EnvelopeFollower :=
  { e with attack_coeff := Real.exp (-1 / (attack_ms * 0.001 * sample_rate)),
           release_coeff := Real.exp (-1 / (release_ms * 0.001 * sample_rate)) }

/-- Model of `EnvelopeFollower::process`: rectify, smooth with the attack or release
coefficient, flush to zero below 1e-15, return the new envelope with the
new state. -/
def EnvelopeFollower.process (e : EnvelopeFollower) (input : ℝ) :
    ℝ × EnvelopeFollower :=
  let input_abs := |input|
  let coeff := if input_abs > e.envelope then e.attack_coeff else e.release_coeff
  let envelope := input_abs + coeff * (e.envelope - input_abs)
  let envelope := if envelope < 1e-15 then 0 else envelope
  (envelope, { e with envelope := envelope })

/-- Compressor state, translated from
cantrip_compressor/src/dsp/compressor.rs: it owns one envelope follower. -/
structure Compressor where
  envelope : EnvelopeFollower

/-- Model of `Compressor::new` / `Compressor::default`. -/
def Compressor.new : Compressor := ⟨EnvelopeFollower.default⟩

/-- Model of `Compressor::reset`: delegate to the envelope follower. -/
def Compressor.reset (c : Compressor) : Compressor :=
  ⟨c.envelope.reset⟩

/-- Model of `Compressor::set_times`: delegate to the envelope follower. -/
def Compressor.set_times (c : Compressor) (attack_ms release_ms sample_rate : ℝ) :
    Compressor :=
  ⟨c.envelope.set_times attack_ms release_ms sample_rate⟩

/-- Model of `Compressor::compute_gain_reduction`: knee-aware gain reduction in dB
(cantrip_compressor/src/dsp/compressor.rs lines 37-59). -/
def Compressor.compute_gain_reduction (input_db threshold_db ratio knee_db : ℝ) : ℝ :=
  let half_knee := knee_db / 2
  if knee_db > 0 ∧ input_db > threshold_db - half_knee ∧ input_db < threshold_db + half_knee then
    let x := input_db - threshold_db + half_knee
    (1 / ratio - 1) * x * x / (2 * knee_db)
  else if input_db ≥ threshold_db + half_knee then
    let excess := input_db - threshold_db
    let compressed_excess := excess / ratio
    compressed_excess - excess
  else 0

/-- Model of `Compressor::process_stereo`: linked-stereo detection, envelope
smoothing, dB conversion with a -100 dB floor, gain reduction, conversion
back to a linear gain.  Returns the gain with the new state. -/
def Compressor.process_stereo (c : Compressor)
    (left right threshold_db ratio knee_db : ℝ) : ℝ × Compressor :=
  let input := max |left| |right|
  let ep := c.envelope.process input
  let envelope := ep.1
  let input_db := if envelope > 1e-10 then 20 * Real.logb 10 envelope else -100
  let gain_reduction_db := Compressor.compute_gain_reduction input_db threshold_db ratio knee_db
  ((10 : ℝ) ^ (gain_reduction_db / 20), ⟨ep.2⟩)

end

/-- Delay line state, translated from cantrip_delay/src/dsp/delay_line.rs:
a circular buffer of samples, a write cursor, and the sample rate.  The
buffer is a list of rationals, machine indices are naturals. -/
structure DelayLine where
  buffer : List ℚ
  write_pos : ℕ
  sample_rate : ℚ

/-- Model of `DelayLine::new`: allocate a zeroed buffer of
ceil(max_delay_ms * sample_rate / 1000) + 1 samples (the Rust cast
`as usize` saturates negative values to 0, which `Int.toNat` models). -/
def DelayLine.new (max_delay_ms sample_rate : ℚ) : DelayLine :=
  let max_samples := (⌈max_delay_ms * sample_rate / 1000⌉).toNat + 1
  { buffer := List.replicate max_samples 0, write_pos := 0, sample_rate := sample_rate }

/-- Model of `DelayLine::reset`: zero the whole buffer, reset the cursor. -/
def DelayLine.reset (s : DelayLine) : DelayLine :=
  { s with buffer := List.replicate s.buffer.length 0, write_pos := 0 }

/-- Model of `DelayLine::process`: truncate the requested delay to samples (the Rust
cast `as usize` truncates toward zero and saturates negatives at 0, which
is floor followed by `Int.toNat`), clamp it to length - 1, read the delayed
sample, write input + delayed * feedback at the cursor, advance the cursor
with wraparound, and return the pre-feedback delayed sample with the new
state.  Out-of-range reads (impossible under the cursor invariant) are
modelled by `getD` with default 0. -/
def DelayLine.process (s : DelayLine) (input delay_ms feedback : ℚ) :
    ℚ × DelayLine :=
  let delay_samples := (⌊delay_ms * s.sample_rate / 1000⌋).toNat
  let delay_samples := min delay_samples (s.buffer.length - 1)
  let read_pos := if delay_samples ≤ s.write_pos then s.write_pos - delay_samples
    else s.buffer.length - (delay_samples - s.write_pos)
  let delayed := s.buffer.getD read_pos 0
  let buffer := s.buffer.set s.write_pos (input + delayed * feedback)
  let write_pos := s.write_pos + 1
  let write_pos := if write_pos ≥ s.buffer.length then 0 else write_pos
  (delayed, { s with buffer := buffer, write_pos := write_pos })

/-- Driver used to phrase behavioural claims: fold `DelayLine::process`
over a list of (input, delay_ms, feedback) calls, keeping the final state. -/
def DelayLine.runCalls (s : DelayLine) (calls : List (ℚ × ℚ × ℚ)) : DelayLine :=
  calls.foldl (fun st c => (st.process c.1 c.2.1 c.2.2).2) s

noncomputable section

/-- Claim-side function, written from the words of claim C3: the input
level in dB is 20 * log10(envelope) when envelope > 1e-10 and -100
otherwise. -/
def specInputDb (envelope : ℝ) : ℝ :=
  if envelope > 1e-10 then 20 * Real.logb 10 envelope else -100

/-- Claim-side function, written from the words of claim C3: the piecewise
gain-reduction curve in dB (soft-knee parabola, full compression above the
knee, zero otherwise). -/
def specReductionDb (input_db threshold_db ratio knee_db : ℝ) : ℝ :=
  let half_knee := knee_db / 2
  if knee_db > 0 ∧ threshold_db - half_knee < input_db ∧ input_db < threshold_db + half_knee then
    (1 / ratio - 1) * (input_db - threshold_db + half_knee) ^ 2 / (2 * knee_db)
  else if input_db ≥ threshold_db + half_knee then
    (input_db - threshold_db) / ratio - (input_db - threshold_db)
  else 0

end

/-! Theorems for the claims. -/

/-- Claim C1: for every coefficient setting and every input sample,
`Biquad.process` returns b0*input + b1*x1 + b2*x2 - a1*y1 - a2*y2 computed
from the current coefficients and the four history cells, flushed to
exactly 0 when its absolute value is below 1e-11, and updates the history
exactly as x2 <- x1, x1 <- input, y2 <- y1, y1 <- output, mutating nothing
else (the five coefficients are unchanged). -/
theorem biquad_process_spec (s : Biquad) (input : ℝ) :
    Biquad.process s input =
      (if |s.b0 * input + s.b1 * s.x1 + s.b2 * s.x2 - s.a1 * s.y1 - s.a2 * s.y2| < 1e-11
        then 0
        else s.b0 * input + s.b1 * s.x1 + s.b2 * s.x2 - s.a1 * s.y1 - s.a2 * s.y2,
       { a1 := s.a1, a2 := s.a2, b0 := s.b0, b1 := s.b1, b2 := s.b2,
         x1 := input, x2 := s.x1,
         y1 := if |s.b0 * input + s.b1 * s.x1 + s.b2 * s.x2 - s.a1 * s.y1 - s.a2 * s.y2| < 1e-11
           then 0
           else s.b0 * input + s.b1 * s.x1 + s.b2 * s.x2 - s.a1 * s.y1 - s.a2 * s.y2,
         y2 := s.y1 }) := rfl

/-- Claim C7: with the Unity filter coefficients set by `Biquad.update`,
`Biquad.process` is the identity on every input whose absolute value is at
or above the denormal flush threshold 1e-11, regardless of the history. -/
theorem unity_process_id (s : Biquad) (freq q gain_db sample_rate x : ℝ)
    (h : 1e-11 ≤ |x|) :
    ((Biquad.update s .Unity freq q gain_db sample_rate).process x).1 = x := by
  have h2 : ¬ (|x| < 1 / 100000000000) := not_lt.mpr (by norm_num at h ⊢; linarith)
  simp only [Biquad.update, Biquad.rawCoefficients, Biquad.process]
  norm_num
  exact fun hlt => absurd hlt h2

/-- Witness for claim C7 at the concrete input x = 1. -/
theorem unity_process_id_witness :
    (1e-11 : ℝ) ≤ |(1 : ℝ)| ∧
      ((Biquad.update Biquad.new .Unity 1000 1 0 48000).process 1).1 = 1 :=
  ⟨by norm_num, unity_process_id Biquad.new 1000 1 0 48000 1 (by norm_num)⟩

/-- Claim C9: for the LinkwitzRileyLP, LinkwitzRileyHP, ButterworthLP and
ButterworthHP filter types, two coefficient derivations that differ only in
the caller-supplied (positive) q produce identical normalized coefficients:
both the inline derivation in `Biquad.update` and the dispatched
`FilterType.compute_coefficients` recompute alpha internally with Q fixed
to 0.5 (Linkwitz-Riley) resp. 1/sqrt 2 (Butterworth). -/
theorem fixed_q_ignores_caller_q (s : Biquad) (freq q1 q2 gain_db sample_rate : ℝ)
    (hq1 : 0 < q1) (hq2 : 0 < q2) :
    (Biquad.update s .LinkwitzRileyLP freq q1 gain_db sample_rate
        = Biquad.update s .LinkwitzRileyLP freq q2 gain_db sample_rate)
    ∧ (Biquad.update s .LinkwitzRileyHP freq q1 gain_db sample_rate
        = Biquad.update s .LinkwitzRileyHP freq q2 gain_db sample_rate)
    ∧ (Biquad.update s .ButterworthLP freq q1 gain_db sample_rate
        = Biquad.update s .ButterworthLP freq q2 gain_db sample_rate)
    ∧ (Biquad.update s .ButterworthHP freq q1 gain_db sample_rate
        = Biquad.update s .ButterworthHP freq q2 gain_db sample_rate)
    ∧ (FilterType.compute_coefficients .LinkwitzRileyLP freq q1 gain_db sample_rate
        = FilterType.compute_coefficients .LinkwitzRileyLP freq q2 gain_db sample_rate)
    ∧ (FilterType.compute_coefficients .LinkwitzRileyHP freq q1 gain_db sample_rate
        = FilterType.compute_coefficients .LinkwitzRileyHP freq q2 gain_db sample_rate)
    ∧ (FilterType.compute_coefficients .ButterworthLP freq q1 gain_db sample_rate
        = FilterType.compute_coefficients .ButterworthLP freq q2 gain_db sample_rate)
    ∧ (FilterType.compute_coefficients .ButterworthHP freq q1 gain_db sample_rate
        = FilterType.compute_coefficients .ButterworthHP freq q2 gain_db sample_rate) :=
  ⟨rfl, rfl, rfl, rfl, rfl, rfl, rfl, rfl⟩

/-- Witness for claim C9 at concrete positive q values 1 and 2. -/
theorem fixed_q_ignores_caller_q_witness :
    (0 : ℝ) < 1 ∧ (0 : ℝ) < 2 ∧
      (Biquad.update Biquad.new .LinkwitzRileyLP 1000 1 0 48000
        = Biquad.update Biquad.new .LinkwitzRileyLP 1000 2 0 48000) :=
  ⟨by norm_num, by norm_num,
   (fixed_q_ignores_caller_q Biquad.new 1000 1 2 0 48000 (by norm_num) (by norm_num)).1⟩

/-- Claim C10: the inline coefficient derivation in `Biquad.update` and the
dispatched derivation `FilterType.compute_coefficients` (via
`BiquadCoefficients.from_raw`) produce identical normalized coefficients
(b0, b1, b2, a1, a2) for every filter type and every
(frequency, q, gain, sample rate) input tuple. -/
theorem update_matches_compute_coefficients (s : Biquad) (ft : FilterType)
    (freq q gain_db sample_rate : ℝ) :
    BiquadCoefficients.mk
        (Biquad.update s ft freq q gain_db sample_rate).b0
        (Biquad.update s ft freq q gain_db sample_rate).b1
        (Biquad.update s ft freq q gain_db sample_rate).b2
        (Biquad.update s ft freq q gain_db sample_rate).a1
        (Biquad.update s ft freq q gain_db sample_rate).a2
      = FilterType.compute_coefficients ft freq q gain_db sample_rate := by
  cases ft <;>
    first
      | rfl
      | (simp only [Biquad.update, Biquad.rawCoefficients,
          FilterType.compute_coefficients, BiquadCoefficients.unity,
          BiquadCoefficients.from_raw, BiquadCoefficients.mk.injEq]
         norm_num)

/-- Helper: `DelayLine.process` preserves the buffer length. -/
theorem delay_process_buffer_length (s : DelayLine) (i d f : ℚ) :
    ((s.process i d f).2).buffer.length = s.buffer.length := by
  simp [DelayLine.process]

/-- Helper: `DelayLine.process` preserves the sample rate. -/
theorem delay_process_sample_rate (s : DelayLine) (i d f : ℚ) :
    ((s.process i d f).2).sample_rate = s.sample_rate := rfl

/-- Helper: any sequence of `DelayLine.process` calls preserves the buffer
length. -/
theorem delay_runCalls_buffer_length (calls : List (ℚ × ℚ × ℚ)) (s : DelayLine) :
    (s.runCalls calls).buffer.length = s.buffer.length := by
  induction calls generalizing s with
  | nil => rfl
  | cons c cs ih =>
      show (((s.process c.1 c.2.1 c.2.2).2).runCalls cs).buffer.length = _
      rw [ih, delay_process_buffer_length]

/-- Helper: any sequence of `DelayLine.process` calls preserves the sample
rate. -/
theorem delay_runCalls_sample_rate (calls : List (ℚ × ℚ × ℚ)) (s : DelayLine) :
    (s.runCalls calls).sample_rate = s.sample_rate := by
  induction calls generalizing s with
  | nil => rfl
  | cons c cs ih =>
      show (((s.process c.1 c.2.1 c.2.2).2).runCalls cs).sample_rate = _
      rw [ih, delay_process_sample_rate]

/-- Claim C8: for each stage (Biquad, EnvelopeFollower/Compressor,
DelayLine), reset is idempotent, and the state after reset of a configured
(and, for the delay line, arbitrarily used) instance is equal to that of a
freshly constructed instance configured with the same parameters; since
the states are equal, the observable behaviour under any subsequent
sequence of process calls is identical. -/
theorem reset_idempotent_and_fresh_equiv :
    (∀ b : Biquad, b.reset.reset = b.reset)
    ∧ (∀ e : EnvelopeFollower, e.reset.reset = e.reset)
    ∧ (∀ c : Compressor, c.reset.reset = c.reset)
    ∧ (∀ d : DelayLine, d.reset.reset = d.reset)
    ∧ (∀ (s : Biquad) (ft : FilterType) (freq q gain_db sample_rate : ℝ),
        (Biquad.update s ft freq q gain_db sample_rate).reset
          = Biquad.update Biquad.new ft freq q gain_db sample_rate)
    ∧ (∀ (e : EnvelopeFollower) (attack_ms release_ms sample_rate : ℝ),
        (e.set_times attack_ms release_ms sample_rate).reset
          = EnvelopeFollower.default.set_times attack_ms release_ms sample_rate)
    ∧ (∀ (c : Compressor) (attack_ms release_ms sample_rate : ℝ),
        (c.set_times attack_ms release_ms sample_rate).reset
          = Compressor.new.set_times attack_ms release_ms sample_rate)
    ∧ (∀ (max_delay_ms sample_rate : ℚ) (calls : List (ℚ × ℚ × ℚ)),
        ((DelayLine.new max_delay_ms sample_rate).runCalls calls).reset
          = DelayLine.new max_delay_ms sample_rate) := by
  refine ⟨fun b => rfl, fun e => rfl, fun c => rfl, fun d => ?_,
    fun s ft freq q gain_db sample_rate => rfl,
    fun e attack_ms release_ms sample_rate => rfl,
    fun c attack_ms release_ms sample_rate => rfl,
    fun max_delay_ms sample_rate calls => ?_⟩
  · simp [DelayLine.reset, List.length_replicate]
  · have h1 := delay_runCalls_buffer_length calls (DelayLine.new max_delay_ms sample_rate)
    have h2 := delay_runCalls_sample_rate calls (DelayLine.new max_delay_ms sample_rate)
    simp only [DelayLine.reset, h1, h2]
    simp [DelayLine.new, List.length_replicate]

/-- Helper: the low-shelf a0 is positive for positive gain factor,
cosine in [-1, 1] and positive alpha. -/
theorem shelf_a0_pos_low (A c α : ℝ) (hA : 0 < A) (hc1 : -1 ≤ c) (hc2 : c ≤ 1)
    (hα : 0 < α) : 0 < (A + 1) + (A - 1) * c + 2 * Real.sqrt A * α := by
  have hs : 0 < 2 * Real.sqrt A * α := by
    have := Real.sqrt_pos.mpr hA
    positivity
  nlinarith [mul_nonneg hA.le (by linarith : (0:ℝ) ≤ 1 + c)]

/-- Helper: the high-shelf a0 is positive for positive gain factor,
cosine in [-1, 1] and positive alpha. -/
theorem shelf_a0_pos_high (A c α : ℝ) (hA : 0 < A) (hc1 : -1 ≤ c) (hc2 : c ≤ 1)
    (hα : 0 < α) : 0 < (A + 1) - (A - 1) * c + 2 * Real.sqrt A * α := by
  have hs : 0 < 2 * Real.sqrt A * α := by
    have := Real.sqrt_pos.mpr hA
    positivity
  nlinarith [mul_nonneg hA.le (by linarith : (0:ℝ) ≤ 1 - c)]

/-- Claim C2: for every filter type, every positive q, every gain, every
positive sample rate and every frequency (clamped into
[1, 0.499 * sampleRate] before trigonometric use), the unnormalized a0
produced by the derivation in `Biquad.update` is strictly positive, so the
final normalization (the single division by a0) never divides by zero. -/
theorem rawCoefficients_a0_pos (ft : FilterType) (freq q gain_db sample_rate : ℝ)
    (hq : 0 < q) (hsr : 0 < sample_rate) :
    0 < (Biquad.rawCoefficients ft freq q gain_db sample_rate).a0 := by
  have hf0 : 0 < fclamp freq 1 (sample_rate * 0.499) := by
    rw [fclamp]
    exact lt_min (lt_of_lt_of_le one_pos (le_max_right _ _))
      (mul_pos hsr (by norm_num))
  have hfhi : fclamp freq 1 (sample_rate * 0.499) ≤ sample_rate * 0.499 :=
    min_le_right _ _
  have harg1 : 0 < 2 * Real.pi * fclamp freq 1 (sample_rate * 0.499) / sample_rate :=
    div_pos (mul_pos (mul_pos two_pos Real.pi_pos) hf0) hsr
  have harg2 : 2 * Real.pi * fclamp freq 1 (sample_rate * 0.499) / sample_rate < Real.pi := by
    rw [div_lt_iff hsr]
    nlinarith [mul_le_mul_of_nonneg_left hfhi
        (le_of_lt (mul_pos two_pos Real.pi_pos)),
      mul_pos Real.pi_pos hsr]
  have hS : 0 < Real.sin (2 * Real.pi * fclamp freq 1 (sample_rate * 0.499) / sample_rate) :=
    Real.sin_pos_of_pos_of_lt_pi harg1 harg2
  have hC1 : -1 ≤ Real.cos (2 * Real.pi * fclamp freq 1 (sample_rate * 0.499) / sample_rate) :=
    Real.neg_one_le_cos _
  have hC2 : Real.cos (2 * Real.pi * fclamp freq 1 (sample_rate * 0.499) / sample_rate) ≤ 1 :=
    Real.cos_le_one _
  have hαq : 0 < Real.sin (2 * Real.pi * fclamp freq 1 (sample_rate * 0.499) / sample_rate) / (2 * q) :=
    div_pos hS (by linarith)
  have hA : 0 < (10 : ℝ) ^ (gain_db / 40) :=
    Real.rpow_pos_of_pos (by norm_num) _
  have hCA : 0 < (10 : ℝ) ^ (max gain_db 3 / 40) :=
    Real.rpow_pos_of_pos (by norm_num) _
  have hTA : 0 < Real.sqrt ((10 : ℝ) ^ (gain_db / 20)) :=
    Real.sqrt_pos.mpr (Real.rpow_pos_of_pos (by norm_num) _)
  have hDS : -1 ≤ Real.sin (2 * Real.pi * 20 / sample_rate) := Real.neg_one_le_sin _
  cases ft
  case LowPass => simp only [Biquad.rawCoefficients]; linarith
  case HighPass => simp only [Biquad.rawCoefficients]; linarith
  case BandPass => simp only [Biquad.rawCoefficients]; linarith
  case Notch => simp only [Biquad.rawCoefficients]; linarith
  case AllPass => simp only [Biquad.rawCoefficients]; linarith
  case LowPass6dB => simp only [Biquad.rawCoefficients]; norm_num
  case HighPass6dB => simp only [Biquad.rawCoefficients]; norm_num
  case Peaking =>
    simp only [Biquad.rawCoefficients]
    have := div_pos hαq hA
    linarith
  case LowShelf =>
    simp only [Biquad.rawCoefficients]
    exact shelf_a0_pos_low _ _ _ hA hC1 hC2 hαq
  case HighShelf =>
    simp only [Biquad.rawCoefficients]
    exact shelf_a0_pos_high _ _ _ hA hC1 hC2 hαq
  case Tilt =>
    simp only [Biquad.rawCoefficients]
    nlinarith [mul_pos hαq hTA]
  case LinkwitzRileyLP =>
    simp only [Biquad.rawCoefficients]
    have := div_pos hS (show (0:ℝ) < 2 * 0.5 by norm_num)
    linarith
  case LinkwitzRileyHP =>
    simp only [Biquad.rawCoefficients]
    have := div_pos hS (show (0:ℝ) < 2 * 0.5 by norm_num)
    linarith
  case ButterworthLP =>
    simp only [Biquad.rawCoefficients]
    have hfr : 0 < 2 * frac_1_sqrt_2 := by
      rw [frac_1_sqrt_2]
      have := Real.sqrt_pos.mpr (show (0:ℝ) < 2 by norm_num)
      positivity
    have := div_pos hS hfr
    linarith
  case ButterworthHP =>
    simp only [Biquad.rawCoefficients]
    have hfr : 0 < 2 * frac_1_sqrt_2 := by
      rw [frac_1_sqrt_2]
      have := Real.sqrt_pos.mpr (show (0:ℝ) < 2 by norm_num)
      positivity
    have := div_pos hS hfr
    linarith
  case BandPass0dB => simp only [Biquad.rawCoefficients]; linarith
  case Warmth =>
    simp only [Biquad.rawCoefficients]
    exact shelf_a0_pos_low _ _ _ hCA hC1 hC2
      (div_pos hS (by norm_num))
  case Brightness =>
    simp only [Biquad.rawCoefficients]
    exact shelf_a0_pos_high _ _ _ hCA hC1 hC2
      (div_pos hS (by norm_num))
  case Presence =>
    simp only [Biquad.rawCoefficients]
    have := div_pos (div_pos hS (show (0:ℝ) < 2 * 1.5 by norm_num)) hCA
    linarith
  case Air =>
    simp only [Biquad.rawCoefficients]
    exact shelf_a0_pos_high _ _ _ hCA hC1 hC2
      (div_pos hS (by norm_num))
  case SubBass =>
    simp only [Biquad.rawCoefficients]
    exact shelf_a0_pos_low _ _ _ hCA hC1 hC2
      (div_pos hS (by norm_num))
  case Vocal =>
    simp only [Biquad.rawCoefficients]
    have := div_pos (div_pos hS (show (0:ℝ) < 2 * 2 by norm_num)) hCA
    linarith
  case DCBlock =>
    simp only [Biquad.rawCoefficients]
    have h := (div_le_div_right (show (0:ℝ) < 2 * 0.707 by norm_num)).mpr hDS
    linarith
  case Unity => simp only [Biquad.rawCoefficients]; norm_num

/-- Witness for claim C2 at a concrete parameter tuple. -/
theorem rawCoefficients_a0_pos_witness :
    (0 : ℝ) < 1 ∧ (0 : ℝ) < 48000 ∧
      0 < (Biquad.rawCoefficients .LowPass 1000 1 0 48000).a0 :=
  ⟨by norm_num, by norm_num,
   rawCoefficients_a0_pos .LowPass 1000 1 0 48000 (by norm_num) (by norm_num)⟩

/-- Helper: the gain-reduction computation of the compressor equals the
piecewise curve written in the specification. -/
theorem compute_gain_reduction_eq_spec (input_db threshold_db ratio knee_db : ℝ) :
    Compressor.compute_gain_reduction input_db threshold_db ratio knee_db
      = specReductionDb input_db threshold_db ratio knee_db := by
  unfold Compressor.compute_gain_reduction specReductionDb
  dsimp only
  split_ifs with h1 h2 <;> ring

/-- Claim C3: the gain returned by `Compressor.process_stereo` is exactly
10 ^ (reductionDb / 20) where reductionDb is the specified piecewise
function of the input level in dB (20 * log10 envelope above the 1e-10
floor, -100 otherwise), for every envelope value, threshold, ratio and
knee width. -/
theorem process_stereo_gain_spec (c : Compressor)
    (left right threshold_db ratio knee_db : ℝ) :
    (c.process_stereo left right threshold_db ratio knee_db).1 =
      (10 : ℝ) ^ (specReductionDb
        (specInputDb ((c.envelope.process (max |left| |right|)).1))
        threshold_db ratio knee_db / 20) := by
  simp only [Compressor.process_stereo, specInputDb]
  rw [compute_gain_reduction_eq_spec]

/-- Helper: with ratio at least 1 and nonnegative knee width the computed
gain reduction is at most 0 dB. -/
theorem compute_gain_reduction_nonpos (input_db threshold_db ratio knee_db : ℝ)
    (hr : 1 ≤ ratio) (hk : 0 ≤ knee_db) :
    Compressor.compute_gain_reduction input_db threshold_db ratio knee_db ≤ 0 := by
  unfold Compressor.compute_gain_reduction
  dsimp only
  split_ifs with h1 h2
  · obtain ⟨hk0, hlo, hhi⟩ := h1
    have hrpos : 0 < ratio := by linarith
    have h3 : 1 / ratio - 1 ≤ 0 := by
      have : 1 / ratio ≤ 1 := by
        rw [div_le_one hrpos]
        exact hr
      linarith
    have h4 : (1 / ratio - 1) * (input_db - threshold_db + knee_db / 2)
        * (input_db - threshold_db + knee_db / 2) ≤ 0 := by
      nlinarith [sq_nonneg (input_db - threshold_db + knee_db / 2)]
    exact div_nonpos_iff.mpr (Or.inr ⟨h4, by linarith⟩)
  · have hrpos : 0 < ratio := by linarith
    have hnonneg : 0 ≤ input_db - threshold_db := by
      have := h2
      linarith
    have := div_le_self hnonneg hr
    linarith
  · exact le_refl 0

/-- Counterexample to claim C6 as stated: with a negative knee width
(-10 dB) and ratio 2 (which is at least 1), `Compressor.process_stereo`
returns a linear gain strictly greater than 1 at a concrete input, so the
gain does not lie in (0, 1]. -/
theorem process_stereo_gain_above_one :
    1 < (Compressor.process_stereo Compressor.new 0 0 (-97) 2 (-10)).1 := by
  simp only [Compressor.process_stereo, Compressor.new, EnvelopeFollower.default,
    EnvelopeFollower.process, Compressor.compute_gain_reduction]
  norm_num
  rw [Real.one_lt_rpow_iff_of_pos (by norm_num : (0:ℝ) < 10)]
  norm_num

/-- Claim C6 (amended with nonnegative knee width): for every pair of
input samples, every threshold, every knee width at least 0 and every
ratio at least 1, the gain reduction is at most 0 dB, so the linear gain
returned by `Compressor.process_stereo` lies in (0, 1]. -/
theorem process_stereo_gain_in_unit_interval (c : Compressor)
    (left right threshold_db ratio knee_db : ℝ)
    (hr : 1 ≤ ratio) (hk : 0 ≤ knee_db) :
    0 < (c.process_stereo left right threshold_db ratio knee_db).1 ∧
      (c.process_stereo left right threshold_db ratio knee_db).1 ≤ 1 := by
  simp only [Compressor.process_stereo]
  constructor
  · exact Real.rpow_pos_of_pos (by norm_num) _
  · apply Real.rpow_le_one_of_one_le_of_nonpos (by norm_num)
    exact div_nonpos_iff.mpr
      (Or.inr ⟨compute_gain_reduction_nonpos _ _ _ _ hr hk, by norm_num⟩)

/-- Witness for the amended claim C6 at a concrete parameter tuple. -/
theorem process_stereo_gain_in_unit_interval_witness :
    (1 : ℝ) ≤ 4 ∧ (0 : ℝ) ≤ 6 ∧
      (0 < (Compressor.process_stereo Compressor.new 0 0 (-20) 4 6).1 ∧
        (Compressor.process_stereo Compressor.new 0 0 (-20) 4 6).1 ≤ 1) :=
  ⟨by norm_num, by norm_num,
   process_stereo_gain_in_unit_interval Compressor.new 0 0 (-20) 4 6
     (by norm_num) (by norm_num)⟩

/-- Counterexample to claim C5 as stated: at the concrete state with
envelope 0, attack coefficient 2, release coefficient 0 and input 1, the
updated envelope value described by the claim is 1 + 2 * (0 - 1) = -1,
whose absolute value is not below 1e-15, so the claim predicts -1; the
code flushes on the signed comparison envelope < 1e-15 and returns 0. -/
theorem envelope_process_abs_flush_cex :
    ¬ ((EnvelopeFollower.process ⟨0, 2, 0⟩ 1).1
        = if |(1 : ℝ) + 2 * (0 - 1)| < 1e-15 then 0 else 1 + 2 * (0 - 1)) := by
  simp only [EnvelopeFollower.process]
  norm_num

/-- Claim C5 (amended): `EnvelopeFollower.process` rectifies the input,
selects the attack coefficient when the rectified input exceeds the
current envelope and the release coefficient otherwise, updates the
envelope to input_abs + coeff * (envelope - input_abs), flushes the
envelope to 0 when envelope < 1e-15 (a signed comparison, not an absolute
value), and returns the updated envelope. -/
theorem envelope_process_spec (e : EnvelopeFollower) (input : ℝ) :
    EnvelopeFollower.process e input =
      (if |input| + (if |input| > e.envelope then e.attack_coeff else e.release_coeff)
            * (e.envelope - |input|) < 1e-15
        then 0
        else |input| + (if |input| > e.envelope then e.attack_coeff else e.release_coeff)
            * (e.envelope - |input|),
       { envelope := if |input| + (if |input| > e.envelope then e.attack_coeff else e.release_coeff)
              * (e.envelope - |input|) < 1e-15
            then 0
            else |input| + (if |input| > e.envelope then e.attack_coeff else e.release_coeff)
              * (e.envelope - |input|),
         attack_coeff := e.attack_coeff,
         release_coeff := e.release_coeff }) := rfl

/-- Helper: the branching read-position computation of the delay line is
subtraction modulo the buffer length. -/
theorem delay_readpos_mod (wp ds L : ℕ) (h1 : wp < L) (h2 : ds < L) :
    (if ds ≤ wp then wp - ds else L - (ds - wp)) = (wp + L - ds) % L := by
  split_ifs with h
  · have heq : wp + L - ds = (wp - ds) + L := by omega
    rw [heq, Nat.add_mod_right, Nat.mod_eq_of_lt (by omega)]
  · rw [Nat.mod_eq_of_lt (by omega)]
    omega

/-- Helper: the branching cursor advance of the delay line is increment
modulo the buffer length. -/
theorem delay_advance_mod (wp L : ℕ) (h1 : wp < L) :
    (if wp + 1 ≥ L then 0 else wp + 1) = (wp + 1) % L := by
  split_ifs with h
  · have heq : wp + 1 = L := by omega
    rw [heq, Nat.mod_self]
  · rw [Nat.mod_eq_of_lt (by omega)]

/-- Claim C4: for every call with the cursor in bounds, the delay in
samples is floor(delayMs * sampleRate / 1000) clamped to bufferLength - 1,
the read position is writePos minus delaySamples modulo the buffer length,
the returned value is the pre-write buffer content at the read position,
input + delayed * feedback is written at writePos, writePos advances by one
modulo the buffer length, and both indices stay in bounds for every
argument value. -/
theorem delay_process_spec (s : DelayLine) (input delay_ms feedback : ℚ)
    (hwp : s.write_pos < s.buffer.length) :
    s.process input delay_ms feedback =
      (s.buffer.getD ((s.write_pos + s.buffer.length
            - min ⌊delay_ms * s.sample_rate / 1000⌋₊ (s.buffer.length - 1))
          % s.buffer.length) 0,
       { s with
          buffer := s.buffer.set s.write_pos
            (input + s.buffer.getD ((s.write_pos + s.buffer.length
                - min ⌊delay_ms * s.sample_rate / 1000⌋₊ (s.buffer.length - 1))
              % s.buffer.length) 0 * feedback),
          write_pos := (s.write_pos + 1) % s.buffer.length })
    ∧ (s.write_pos + s.buffer.length
          - min ⌊delay_ms * s.sample_rate / 1000⌋₊ (s.buffer.length - 1))
        % s.buffer.length < s.buffer.length
    ∧ (s.write_pos + 1) % s.buffer.length < s.buffer.length := by
  have hlen : 0 < s.buffer.length := lt_of_le_of_lt (Nat.zero_le _) hwp
  have hds : min ⌊delay_ms * s.sample_rate / 1000⌋₊ (s.buffer.length - 1)
      < s.buffer.length :=
    lt_of_le_of_lt (min_le_right _ _) (Nat.sub_lt hlen Nat.one_pos)
  refine ⟨?_, Nat.mod_lt _ hlen, Nat.mod_lt _ hlen⟩
  simp only [DelayLine.process, Int.floor_toNat]
  rw [delay_readpos_mod s.write_pos
      (min ⌊delay_ms * s.sample_rate / 1000⌋₊ (s.buffer.length - 1))
      s.buffer.length hwp hds,
    delay_advance_mod s.write_pos s.buffer.length hwp]

/-- Witness for claim C4 at a concrete delay-line state and call. -/
theorem delay_process_spec_witness :
    (DelayLine.mk [0, 0, 0] 0 1000).write_pos
        < (DelayLine.mk [0, 0, 0] 0 1000).buffer.length ∧
      (0 + 3 - min ⌊(2 : ℚ) * 1000 / 1000⌋₊ (3 - 1)) % 3 < 3 := by
  refine ⟨by decide, ?_⟩
  exact (delay_process_spec (DelayLine.mk [0, 0, 0] 0 1000) 5 2 (1/2) (by decide)).2.1
